import Mathlib

/-!
# SAMPARK screen-guidance session — embedding and verification

Shallow embedding of the screen-guidance WebSocket session loop of
`server/screen_analyzer.py` (function `handle_screen_ws`), the vision and
speech adapter result handling of `server/ai_engine.py` / `server/voice_handler.py`,
the guidance-offer classifier `is_guided_flow`, and the feature-flag checks in
`main.py` (`screen_ws`, `screen_analyze`).

Conventions of the embedding:
* Wall-clock times (`time.time()` floats) are rationals `ℚ`.
* External provider calls are oracles: a `VisionOutcome` / `SpeechOutcome`
  parameter of the step says whether the external call succeeded and with what
  payload; the embedded adapter functions (`analyze_screen`, `synthesize`)
  reproduce exactly how the Python adapters convert those outcomes into values
  (including the caught-exception fallback paths).
* A JSON dict read only through `msg.get(key, default)` is embedded as a record
  of `Option String` fields (`Option.getD` mirrors `.get`).
* Audio bytes are `List Nat`; the wire event carries their base64 encoding,
  implemented concretely below.
-/

namespace Sampark

/-! ## Base64 (data formatting used when putting audio on the wire) -/

def B64_ALPHABET : List Char :=
  "ABCDEFGHIJKLMNOPQRSTUVWXYZabcdefghijklmnopqrstuvwxyz0123456789+/".data

def b64char (n : Nat) : Char := B64_ALPHABET.getD n 'A'

/-- Encode one final group of 1, 2 or 3 bytes as 4 base64 characters. -/
def b64group : List Nat → List Char
  | [] => []
  | [b0] => [b64char (b0 / 4), b64char (b0 % 4 * 16), '=', '=']
  | [b0, b1] => [b64char (b0 / 4), b64char (b0 % 4 * 16 + b1 / 16),
                 b64char (b1 % 16 * 4), '=']
  | b0 :: b1 :: b2 :: _ =>
      [b64char (b0 / 4), b64char (b0 % 4 * 16 + b1 / 16),
       b64char (b1 % 16 * 4 + b2 / 64), b64char (b2 % 64)]

def b64encodeList : List Nat → List Char
  | [] => []
  | b0 :: b1 :: b2 :: rest => b64group [b0, b1, b2] ++ b64encodeList rest
  | rest => b64group rest

/-- `base64.b64encode(bytes).decode()`. -/
def b64encode (bytes : List Nat) : String := String.mk (b64encodeList bytes)

/-! ## Adapter outcomes (external collaborators as oracles) -/

/-- Outcome of the external vision provider call inside
`ai_engine._openai_vision` / `_google_vision`: either the provider returned a
reply (already stripped) or it raised. -/
inductive VisionOutcome
  | ok (text : String)
  | fail
  deriving Repr, DecidableEq

/-- `ai_engine._vision_fallback(lang)`. -/
def vision_fallback (lang : String) : String :=
  if lang = "hi" then "स्क्रीन विश्लेषण में समस्या हुई। कृपया दोबारा प्रयास करें।"
  else "Screen analysis failed. Please try again."

/-- `ai_engine.analyze_screen(image_b64, context, lang)`: both provider branches
wrap the whole call in `try/except` and return `_vision_fallback(lang)` when the
provider raises, so the function never raises and a failure yields a non-empty
language-specific fallback text. -/
def analyze_screen (o : VisionOutcome) (lang : String) : String :=
  match o with
  | .ok t => t
  | .fail => vision_fallback lang

/-- Net outcome of the TTS provider chain inside `voice_handler.synthesize`
(Bhashini → gTTS → OpenAI): some provider produced audio bytes, or every
provider failed. -/
inductive SpeechOutcome
  | ok (audio : List Nat)
  | fail
  deriving Repr, DecidableEq

/-- `voice_handler.synthesize(text, lang)`: each provider in the chain catches
its own exceptions; the last fallback (`_openai_tts`) returns `b""` on failure,
so `synthesize` never raises and yields empty bytes when all providers fail. -/
def synthesize (o : SpeechOutcome) : List Nat :=
  match o with
  | .ok a => a
  | .fail => []

/-! ## Wire protocol -/

/-- Outbound events of `handle_screen_ws` (`_send` payloads). `_send` swallows
transport errors, so emitting never alters control flow or state. -/
inductive OutEvent
  | guidance (text : String) (audio_b64 : String) (frame_num : Nat)
  | status (message : String)
  | error (message : String)
  deriving Repr, DecidableEq

/-- A parsed inbound JSON object, restricted to the fields the handler reads
via `msg.get`; `none` is an absent key. -/
structure MsgObj where
  typ : Option String := none
  lang : Option String := none
  context : Option String := none
  image : Option String := none
  action : Option String := none
  deriving Repr, DecidableEq

/-- The raw text received on the socket, as the handler's parse step sees it:
not JSON at all (`json.JSONDecodeError`), JSON but not an object (then
`msg.get` raises `AttributeError`, which escapes to the handler's outer
`except Exception` and ends the loop), or a JSON object. -/
inductive InPayload
  | bad_json
  | non_object
  | object (m : MsgObj)
  deriving Repr, DecidableEq

/-- What `asyncio.wait_for(websocket.receive_text(), timeout=60)` produced:
a message (together with the oracle outcomes of any provider calls the handler
will make while processing it, and `time.time()` as observed in the frame
branch), a 60 s timeout, or `WebSocketDisconnect`. -/
inductive RecvOutcome
  | received (raw : InPayload) (now : ℚ) (vo : VisionOutcome) (so : SpeechOutcome)
  | recv_timeout
  | disconnected
  deriving Repr, DecidableEq

/-- One trip around the `while session.is_active` loop: `t_check` is
`time.time()` at the top-of-loop timeout check, `recv` what the receive did. -/
structure IterInput where
  t_check : ℚ
  recv : RecvOutcome
  deriving Repr, DecidableEq

/-! ## Session state -/

/-- `ScreenSession` dataclass (minus the websocket handle). -/
structure ScreenSession where
  session_id : String
  lang : String := "hi"
  context : String := ""
  last_guidance : String := ""
  frame_count : Nat := 0
  started_at : ℚ
  is_active : Bool := true
  deriving Repr, DecidableEq

def MAX_SESSION_DURATION : ℚ := 300
def MIN_FRAME_INTERVAL : ℚ := 5

/-- The handler's loop state: the session object plus the local variable
`last_analysis_time` (initially `0.0`). -/
structure HandlerState where
  sess : ScreenSession
  last_analysis_time : ℚ := 0
  deriving Repr, DecidableEq

/-! ## The session loop -/

/-- Side effects of one loop iteration, in the order the code performs them.
`inc_frame` is `session.frame_count += 1`, `set_gate` is
`last_analysis_time = now`, `vision_call` / `tts_call` are the provider
invocations, `send` is `_send`. -/
inductive Act
  | inc_frame
  | set_gate (t : ℚ)
  | vision_call (image context lang : String)
  | tts_call (text lang : String)
  | send (e : OutEvent)
  deriving Repr, DecidableEq

/-- Whether the iteration continues the loop or ends the handler (break,
`WebSocketDisconnect`, or an uncaught exception hitting `except Exception`). -/
inductive Ctl
  | next
  | halt
  deriving Repr, DecidableEq

structure IterResult where
  state : HandlerState
  acts : List Act
  ctl : Ctl
  deriving Repr, DecidableEq

/-- The `elif msg_type == "frame"` branch of `handle_screen_ws`. -/
def handle_frame (st : HandlerState) (m : MsgObj) (now : ℚ)
    (vo : VisionOutcome) (so : SpeechOutcome) : IterResult :=
  if now - st.last_analysis_time < MIN_FRAME_INTERVAL then
    ⟨st, [], .next⟩
  else
    let image_b64 := m.image.getD ""
    if image_b64 = "" then
      ⟨st, [], .next⟩
    else
      let sess1 := { st.sess with frame_count := st.sess.frame_count + 1 }
      let st1 : HandlerState := { sess := sess1, last_analysis_time := now }
      let guidance := analyze_screen vo sess1.lang
      let acts0 : List Act :=
        [.inc_frame, .set_gate now, .vision_call image_b64 sess1.context sess1.lang]
      if guidance ≠ "" ∧ guidance ≠ sess1.last_guidance then
        let sess2 := { sess1 with last_guidance := guidance }
        let audio_bytes := synthesize so
        let audio_b64 := if audio_bytes ≠ [] then b64encode audio_bytes else ""
        ⟨{ st1 with sess := sess2 },
         acts0 ++ [.tts_call guidance sess2.lang,
                   .send (.guidance guidance audio_b64 sess2.frame_count)],
         .next⟩
      else
        ⟨st1, acts0, .next⟩

/-- The `elif msg_type == "command"` branch of `handle_screen_ws`. -/
def handle_command (st : HandlerState) (m : MsgObj) (so : SpeechOutcome) :
    IterResult :=
  let action := m.action.getD ""
  if action = "repeat" ∧ st.sess.last_guidance ≠ "" then
    let audio_bytes := synthesize so
    let audio_b64 := if audio_bytes ≠ [] then b64encode audio_bytes else ""
    ⟨st, [.tts_call st.sess.last_guidance st.sess.lang,
          .send (.guidance st.sess.last_guidance audio_b64 st.sess.frame_count)],
     .next⟩
  else if action = "stop" then
    ⟨{ st with sess := { st.sess with is_active := false } },
     [.send (.status "Screen sharing stopped.")], .next⟩
  else if action = "next" then
    ⟨st, [.send (.status "Send next frame for analysis.")], .next⟩
  else
    ⟨st, [], .next⟩

/-- Dispatch on `msg.get("type", "")` for a parsed JSON object. An
unrecognized or missing `type` falls through every branch: nothing is sent and
nothing changes. -/
def handle_msg (st : HandlerState) (m : MsgObj) (now : ℚ)
    (vo : VisionOutcome) (so : SpeechOutcome) : IterResult :=
  let msg_type := m.typ.getD ""
  if msg_type = "start" then
    ⟨{ st with sess := { st.sess with lang := m.lang.getD "hi",
                                      context := m.context.getD "" } },
     [.send (.status "Screen sharing started. Send frames.")], .next⟩
  else if msg_type = "frame" then
    handle_frame st m now vo so
  else if msg_type = "command" then
    handle_command st m so
  else if msg_type = "stop" then
    ⟨{ st with sess := { st.sess with is_active := false } },
     [.send (.status "Screen sharing stopped.")], .next⟩
  else
    ⟨st, [], .next⟩

/-- One iteration of the `while session.is_active` loop of `handle_screen_ws`:
timeout check, receive (with heartbeat on timeout and halt on disconnect),
JSON parse (error event on `JSONDecodeError`; an `AttributeError` from calling
`.get` on a non-dict escapes to the outer `except Exception` and ends the
handler), then message dispatch. -/
def screen_iter (st : HandlerState) (inp : IterInput) : IterResult :=
  if inp.t_check - st.sess.started_at > MAX_SESSION_DURATION then
    ⟨st, [.send (.status "Session timed out (5 minutes). Stopping.")], .halt⟩
  else
    match inp.recv with
    | .recv_timeout => ⟨st, [.send (.status "heartbeat")], .next⟩
    | .disconnected => ⟨st, [], .halt⟩
    | .received raw now vo so =>
      match raw with
      | .bad_json => ⟨st, [.send (.error "Invalid JSON")], .next⟩
      | .non_object => ⟨st, [], .halt⟩
      | .object m => handle_msg st m now vo so

structure RunResult where
  state : HandlerState
  acts : List Act
  deriving Repr, DecidableEq

/-- The whole `while session.is_active:` loop, driven by a finite schedule of
iteration inputs. When `is_active` has been cleared the loop condition fails
and the handler returns (the remaining schedule is irrelevant: the socket is
no longer read). -/
def screen_loop (st : HandlerState) (inps : List IterInput) : RunResult :=
  match inps with
  | [] => ⟨st, []⟩
  | inp :: rest =>
    if st.sess.is_active then
      let r := screen_iter st inp
      match r.ctl with
      | .halt => ⟨r.state, r.acts⟩
      | .next =>
        let rr := screen_loop r.state rest
        ⟨rr.state, r.acts ++ rr.acts⟩
    else ⟨st, []⟩

/-- The events a list of acts puts on the wire. -/
def eventsOf (acts : List Act) : List OutEvent :=
  acts.filterMap fun a =>
    match a with
    | .send e => some e
    | _ => none

def isGuidanceEvent : OutEvent → Bool
  | .guidance _ _ _ => true
  | _ => false

/-- Number of vision-provider invocations in a trace. -/
def visionCalls (acts : List Act) : Nat :=
  acts.countP fun a =>
    match a with
    | .vision_call _ _ _ => true
    | _ => false

/-! ## Guidance-offer classifier (`ai_engine.is_guided_flow`) -/

/-- `ai_engine.GUIDED_KEYWORDS`. -/
def GUIDED_KEYWORDS : List String :=
  ["चरण", "step", "steps", "आवेदन", "apply", "register",
   "पंजीकरण", "फ़ॉर्म", "form", "वेबसाइट", "website",
   "पोर्टल", "portal", ".gov.in", ".nic.in",
   "शिकायत", "grievance", "complaint", "link", "लिंक"]

/-- `str.lower()` as it acts on the ASCII range (the keyword list is ASCII
plus Devanagari, which has no case). -/
def strLower (s : String) : String := String.mk (s.data.map Char.toLower)

/-- `kw.lower() in text_lower` — case-insensitive substring test. -/
def kwMatches (response : String) (kw : String) : Bool :=
  decide ((strLower kw).data <:+: (strLower response).data)

/-- `ai_engine.is_guided_flow(response)`:
`sum(1 for kw in GUIDED_KEYWORDS if kw.lower() in text_lower) >= 2`. -/
def is_guided_flow (response : String) : Bool :=
  decide (2 ≤ GUIDED_KEYWORDS.countP (kwMatches response))

/-! ## Feature-flag surfaces (`main.py`) -/

/-- Result of the `/ws/screen/{session_id}` endpoint's setup phase
(`main.screen_ws`): either the socket is closed before `handle_screen_ws` is
invoked (so no session is created and the registry is untouched), or control
enters the session handler. -/
inductive ScreenWsResult
  | closed (code : Nat) (reason : String)
  | session_handled
  deriving Repr, DecidableEq

/-- `main.screen_ws`: refuse when `settings.enable_screen_guide` is off. -/
def screen_ws (enable_screen_guide : Bool) : ScreenWsResult :=
  if ¬ enable_screen_guide then .closed 4003 "Screen guide disabled"
  else .session_handled

/-- Result of `POST /api/screen/analyze` (`main.screen_analyze`). -/
inductive ScreenAnalyzeResult
  | http_error (status_code : Nat) (detail : String)
  | ok (guidance : String) (audio_b64 : String)
  deriving Repr, DecidableEq

/-- `main.screen_analyze`: 403 when the feature flag is off, otherwise one
vision analysis plus one TTS synthesis. -/
def screen_analyze (enable_screen_guide : Bool) (vo : VisionOutcome)
    (so : SpeechOutcome) (lang : String) : ScreenAnalyzeResult :=
  if ¬ enable_screen_guide then .http_error 403 "Screen guide disabled"
  else
    let guidance := analyze_screen vo lang
    let audio_bytes := synthesize so
    .ok guidance (if audio_bytes ≠ [] then b64encode audio_bytes else "")

/-! ## Branch-reduction lemmas for the session loop -/

lemma screen_iter_received (st : HandlerState) (t now : ℚ) (m : MsgObj)
    (vo : VisionOutcome) (so : SpeechOutcome)
    (h : ¬ (t - st.sess.started_at > MAX_SESSION_DURATION)) :
    screen_iter st ⟨t, .received (.object m) now vo so⟩ = handle_msg st m now vo so := by
  simp [screen_iter, h]

lemma screen_iter_bad_json (st : HandlerState) (t now : ℚ)
    (vo : VisionOutcome) (so : SpeechOutcome)
    (h : ¬ (t - st.sess.started_at > MAX_SESSION_DURATION)) :
    screen_iter st ⟨t, .received .bad_json now vo so⟩
      = ⟨st, [.send (.error "Invalid JSON")], .next⟩ := by
  simp [screen_iter, h]

lemma screen_iter_non_object (st : HandlerState) (t now : ℚ)
    (vo : VisionOutcome) (so : SpeechOutcome)
    (h : ¬ (t - st.sess.started_at > MAX_SESSION_DURATION)) :
    screen_iter st ⟨t, .received .non_object now vo so⟩ = ⟨st, [], .halt⟩ := by
  simp [screen_iter, h]

lemma handle_msg_frame (st : HandlerState) (m : MsgObj) (now : ℚ)
    (vo : VisionOutcome) (so : SpeechOutcome) (h : m.typ.getD "" = "frame") :
    handle_msg st m now vo so = handle_frame st m now vo so := by
  simp [handle_msg, h]

lemma handle_msg_command (st : HandlerState) (m : MsgObj) (now : ℚ)
    (vo : VisionOutcome) (so : SpeechOutcome) (h : m.typ.getD "" = "command") :
    handle_msg st m now vo so = handle_command st m so := by
  simp [handle_msg, h]

lemma handle_msg_unrecognized (st : HandlerState) (m : MsgObj) (now : ℚ)
    (vo : VisionOutcome) (so : SpeechOutcome)
    (h : m.typ.getD "" ∉ (["start", "frame", "command", "stop"] : List String)) :
    handle_msg st m now vo so = ⟨st, [], .next⟩ := by
  simp only [List.mem_cons, List.mem_singleton, not_or] at h
  obtain ⟨h1, h2, h3, h4, -⟩ := h
  simp [handle_msg, h1, h2, h3, h4]

lemma handle_frame_gated (st : HandlerState) (m : MsgObj) (now : ℚ)
    (vo : VisionOutcome) (so : SpeechOutcome)
    (h : now - st.last_analysis_time < MIN_FRAME_INTERVAL) :
    handle_frame st m now vo so = ⟨st, [], .next⟩ := by
  simp [handle_frame, h]

lemma handle_frame_empty_image (st : HandlerState) (m : MsgObj) (now : ℚ)
    (vo : VisionOutcome) (so : SpeechOutcome)
    (h : ¬ (now - st.last_analysis_time < MIN_FRAME_INTERVAL))
    (himg : m.image.getD "" = "") :
    handle_frame st m now vo so = ⟨st, [], .next⟩ := by
  simp [handle_frame, h, himg]

lemma handle_frame_new (st : HandlerState) (m : MsgObj) (now : ℚ)
    (vo : VisionOutcome) (so : SpeechOutcome)
    (h : ¬ (now - st.last_analysis_time < MIN_FRAME_INTERVAL))
    (himg : m.image.getD "" ≠ "")
    (hg : analyze_screen vo st.sess.lang ≠ "")
    (hdiff : analyze_screen vo st.sess.lang ≠ st.sess.last_guidance) :
    handle_frame st m now vo so =
      ⟨⟨{ st.sess with last_guidance := analyze_screen vo st.sess.lang,
                       frame_count := st.sess.frame_count + 1 }, now⟩,
       [.inc_frame, .set_gate now,
        .vision_call (m.image.getD "") st.sess.context st.sess.lang,
        .tts_call (analyze_screen vo st.sess.lang) st.sess.lang,
        .send (.guidance (analyze_screen vo st.sess.lang)
               (if synthesize so ≠ [] then b64encode (synthesize so) else "")
               (st.sess.frame_count + 1))], .next⟩ := by
  simp [handle_frame, h, himg, hg, hdiff]

lemma handle_frame_suppressed (st : HandlerState) (m : MsgObj) (now : ℚ)
    (vo : VisionOutcome) (so : SpeechOutcome)
    (h : ¬ (now - st.last_analysis_time < MIN_FRAME_INTERVAL))
    (himg : m.image.getD "" ≠ "")
    (hng : analyze_screen vo st.sess.lang = ""
           ∨ analyze_screen vo st.sess.lang = st.sess.last_guidance) :
    handle_frame st m now vo so =
      ⟨⟨{ st.sess with frame_count := st.sess.frame_count + 1 }, now⟩,
       [.inc_frame, .set_gate now,
        .vision_call (m.image.getD "") st.sess.context st.sess.lang],
       .next⟩ := by
  have hneg : ¬ (analyze_screen vo st.sess.lang ≠ ""
                 ∧ analyze_screen vo st.sess.lang ≠ st.sess.last_guidance) := by
    rcases hng with h1 | h2
    · exact fun hc => hc.1 h1
    · exact fun hc => hc.2 h2
  simp [handle_frame, h, himg, hneg]

lemma visionCalls_append (a b : List Act) :
    visionCalls (a ++ b) = visionCalls a + visionCalls b :=
  List.countP_append _ _ _

lemma screen_iter_frame_count (st : HandlerState) (inp : IterInput) :
    (screen_iter st inp).state.sess.frame_count
      = st.sess.frame_count + visionCalls (screen_iter st inp).acts := by
  obtain ⟨t, recv⟩ := inp
  unfold screen_iter
  split
  · simp [visionCalls]
  · cases recv with
    | recv_timeout => simp [visionCalls]
    | disconnected => simp [visionCalls]
    | received raw now vo so =>
      cases raw with
      | bad_json => simp [visionCalls]
      | non_object => simp [visionCalls]
      | object m =>
        simp only [handle_msg, handle_frame, handle_command]
        split_ifs <;> simp [visionCalls]

lemma screen_iter_last_guidance (st : HandlerState) (inp : IterInput) :
    (screen_iter st inp).state.sess.last_guidance = st.sess.last_guidance
    ∨ ((screen_iter st inp).state.sess.last_guidance ≠ ""
       ∧ (screen_iter st inp).state.sess.last_guidance ≠ st.sess.last_guidance) := by
  obtain ⟨t, recv⟩ := inp
  unfold screen_iter
  split
  · left; rfl
  · cases recv with
    | recv_timeout => left; rfl
    | disconnected => left; rfl
    | received raw now vo so =>
      cases raw with
      | bad_json => left; rfl
      | non_object => left; rfl
      | object m =>
        simp only [handle_msg, handle_frame, handle_command]
        split_ifs <;> simp_all

lemma vision_fallback_ne_empty (lang : String) : vision_fallback lang ≠ "" := by
  unfold vision_fallback
  split <;> decide

lemma not_and_ne_of_guidance (a b : String) (hc : ¬ (a ≠ "" ∧ a ≠ b)) :
    a = "" ∨ a = b := by
  rcases not_and_or.mp hc with h | h
  · left; exact not_not.mp h
  · right; exact not_not.mp h

lemma screen_loop_cons_next (st : HandlerState) (inp : IterInput)
    (rest : List IterInput) (hact : st.sess.is_active = true)
    (hctl : (screen_iter st inp).ctl = .next) :
    screen_loop st (inp :: rest)
      = ⟨(screen_loop (screen_iter st inp).state rest).state,
         (screen_iter st inp).acts
           ++ (screen_loop (screen_iter st inp).state rest).acts⟩ := by
  simp [screen_loop, hact, hctl]

/-! ## Claim theorems -/

/-- C4: a frame event arriving less than `MIN_FRAME_INTERVAL` (5 s) after the
last analyzed frame's rate-gate timestamp is silently dropped — no vision
call, no outbound event, no state change (in particular `frame_count` is
unchanged); a frame that passes the gate updates the rate-gate timestamp
(`set_gate`) before the vision call is issued, and the new timestamp is the
frame's own receive time. -/
theorem frame_rate_gate :
    (∀ (st : HandlerState) (m : MsgObj) (t now : ℚ)
       (vo : VisionOutcome) (so : SpeechOutcome),
       ¬ (t - st.sess.started_at > MAX_SESSION_DURATION) →
       m.typ.getD "" = "frame" →
       now - st.last_analysis_time < MIN_FRAME_INTERVAL →
       screen_iter st ⟨t, .received (.object m) now vo so⟩ = ⟨st, [], .next⟩)
    ∧ (∀ (st : HandlerState) (m : MsgObj) (t now : ℚ)
       (vo : VisionOutcome) (so : SpeechOutcome),
       ¬ (t - st.sess.started_at > MAX_SESSION_DURATION) →
       m.typ.getD "" = "frame" →
       ¬ (now - st.last_analysis_time < MIN_FRAME_INTERVAL) →
       m.image.getD "" ≠ "" →
       (screen_iter st ⟨t, .received (.object m) now vo so⟩).acts.take 3
         = [.inc_frame, .set_gate now,
            .vision_call (m.image.getD "") st.sess.context st.sess.lang]
       ∧ (screen_iter st ⟨t, .received (.object m) now vo so⟩).state.last_analysis_time
           = now) := by
  constructor
  · intro st m t now vo so hto hty hgate
    rw [screen_iter_received st t now m vo so hto, handle_msg_frame st m now vo so hty,
        handle_frame_gated st m now vo so hgate]
  · intro st m t now vo so hto hty hgate himg
    rw [screen_iter_received st t now m vo so hto, handle_msg_frame st m now vo so hty]
    by_cases hc : analyze_screen vo st.sess.lang ≠ ""
                  ∧ analyze_screen vo st.sess.lang ≠ st.sess.last_guidance
    · rw [handle_frame_new st m now vo so hgate himg hc.1 hc.2]
      exact ⟨rfl, rfl⟩
    · rw [handle_frame_suppressed st m now vo so hgate himg
          (not_and_ne_of_guidance _ _ hc)]
      exact ⟨rfl, rfl⟩

/-- C4 witness: a session 3 s after its last analysis drops the frame whole;
one 10 s after it analyzes, with the gate timestamp set before the vision
call. -/
theorem frame_rate_gate_witness :
    (screen_iter ⟨⟨"s", "hi", "", "", 0, 0, true⟩, 0⟩
       ⟨3, .received (.object { typ := some "frame", image := some "img" }) 3 .fail .fail⟩
       = ⟨⟨⟨"s", "hi", "", "", 0, 0, true⟩, 0⟩, [], .next⟩)
    ∧ (screen_iter ⟨⟨"s", "hi", "", "", 0, 0, true⟩, 0⟩
        ⟨10, .received (.object { typ := some "frame", image := some "img" }) 10 .fail .fail⟩).acts.take 3
       = [.inc_frame, .set_gate 10, .vision_call "img" "" "hi"] :=
  ⟨frame_rate_gate.1 ⟨⟨"s", "hi", "", "", 0, 0, true⟩, 0⟩
      { typ := some "frame", image := some "img" } 3 3 .fail .fail
      (by norm_num [MAX_SESSION_DURATION]) (by rfl)
      (by norm_num [MIN_FRAME_INTERVAL]),
   (frame_rate_gate.2 ⟨⟨"s", "hi", "", "", 0, 0, true⟩, 0⟩
      { typ := some "frame", image := some "img" } 10 10 .fail .fail
      (by norm_num [MAX_SESSION_DURATION]) (by rfl)
      (by norm_num [MIN_FRAME_INTERVAL]) (by decide)).1⟩

/-- C5: over any run of the session loop, `frame_count` grows by exactly the
number of vision analyses performed — it counts analyzed frames only, never
skipped, dropped or non-frame messages. -/
theorem frame_count_counts_analyses (st : HandlerState) (inps : List IterInput) :
    (screen_loop st inps).state.sess.frame_count
      = st.sess.frame_count + visionCalls (screen_loop st inps).acts := by
  induction inps generalizing st with
  | nil => simp [screen_loop, visionCalls]
  | cons inp rest ih =>
    unfold screen_loop
    split
    · cases hc : (screen_iter st inp).ctl with
      | halt => simpa [hc] using screen_iter_frame_count st inp
      | next =>
        simp only [hc]
        rw [ih, screen_iter_frame_count st inp, visionCalls_append]
        omega
    · simp [visionCalls]

/-- C6: a `command` message with action `repeat` while `last_guidance` is
non-empty leaves the whole session state unchanged and emits exactly one
guidance event carrying the current `last_guidance` text and the current
`frame_count`. -/
theorem command_repeat_reuses_guidance (st : HandlerState) (m : MsgObj)
    (t now : ℚ) (vo : VisionOutcome) (so : SpeechOutcome)
    (hto : ¬ (t - st.sess.started_at > MAX_SESSION_DURATION))
    (hty : m.typ.getD "" = "command")
    (hac : m.action.getD "" = "repeat")
    (hlg : st.sess.last_guidance ≠ "") :
    screen_iter st ⟨t, .received (.object m) now vo so⟩
      = ⟨st, [.tts_call st.sess.last_guidance st.sess.lang,
              .send (.guidance st.sess.last_guidance
                     (if synthesize so ≠ [] then b64encode (synthesize so) else "")
                     st.sess.frame_count)], .next⟩ := by
  rw [screen_iter_received st t now m vo so hto, handle_msg_command st m now vo so hty]
  simp [handle_command, hac, hlg]

/-- C6 witness: `repeat` with a stored guidance re-emits it verbatim with the
current frame count and does not change the state. -/
theorem command_repeat_reuses_guidance_witness :
    screen_iter ⟨⟨"s", "hi", "", "Press the blue button", 2, 0, true⟩, 6⟩
        ⟨10, .received (.object { typ := some "command", action := some "repeat" })
             10 .fail .fail⟩
      = ⟨⟨⟨"s", "hi", "", "Press the blue button", 2, 0, true⟩, 6⟩,
         [.tts_call "Press the blue button" "hi",
          .send (.guidance "Press the blue button" "" 2)], .next⟩ := by
  have h := command_repeat_reuses_guidance
    ⟨⟨"s", "hi", "", "Press the blue button", 2, 0, true⟩, 6⟩
    { typ := some "command", action := some "repeat" } 10 10 .fail .fail
    (by norm_num [MAX_SESSION_DURATION]) (by rfl) (by rfl) (by decide)
  simpa [synthesize] using h

/-- C7: whenever the top-of-loop age check — performed once before processing
any inbound message and once per heartbeat-wait timeout, whatever `recv`
holds — sees `now - started_at > MAX_SESSION_DURATION` (300 s) on an active
session, the loop emits a single "timed out" status event and terminates:
the rest of the schedule is never processed and the state is not touched. -/
theorem session_age_timeout (st : HandlerState) (inp : IterInput)
    (rest : List IterInput)
    (hact : st.sess.is_active = true)
    (hage : inp.t_check - st.sess.started_at > MAX_SESSION_DURATION) :
    screen_loop st (inp :: rest)
      = ⟨st, [.send (.status "Session timed out (5 minutes). Stopping.")]⟩ := by
  simp [screen_loop, hact, screen_iter, hage]

/-- C7 witness: a session started at 0 and checked at 301 s times out, and a
pending frame after the timeout is never processed. -/
theorem session_age_timeout_witness :
    screen_loop ⟨⟨"s", "hi", "", "", 0, 0, true⟩, 0⟩
        [⟨301, .recv_timeout⟩,
         ⟨302, .received (.object { typ := some "frame", image := some "img" })
               302 .fail .fail⟩]
      = ⟨⟨⟨"s", "hi", "", "", 0, 0, true⟩, 0⟩,
         [.send (.status "Session timed out (5 minutes). Stopping.")]⟩ :=
  session_age_timeout ⟨⟨"s", "hi", "", "", 0, 0, true⟩, 0⟩ ⟨301, .recv_timeout⟩
    [⟨302, .received (.object { typ := some "frame", image := some "img" })
           302 .fail .fail⟩]
    (by rfl) (by norm_num [MAX_SESSION_DURATION])

/-- C9: with the screen-guide feature flag off, the WebSocket endpoint closes
the connection with the distinguishing code 4003 / "Screen guide disabled"
before the session state machine is entered (so no session is created and the
registry is untouched), and the single-shot analysis endpoint refuses with an
HTTP 403 carrying the same distinguishing detail. -/
theorem feature_disabled_refusal :
    screen_ws false = .closed 4003 "Screen guide disabled"
    ∧ screen_ws false ≠ .session_handled
    ∧ ∀ (vo : VisionOutcome) (so : SpeechOutcome) (lang : String),
        screen_analyze false vo so lang = .http_error 403 "Screen guide disabled" := by
  refine ⟨rfl, by simp [screen_ws], fun vo so lang => rfl⟩

/-- C10: a frame that passes the 5 s rate gate but whose `image` field is
empty or missing is silently dropped: no act at all (no event, no vision
call), and the state — `frame_count` and the rate-gate timestamp
`last_analysis_time` included — is exactly unchanged, so the next frame is
still gated relative to the last genuinely analyzed frame. -/
theorem empty_image_frame_dropped (st : HandlerState) (m : MsgObj)
    (t now : ℚ) (vo : VisionOutcome) (so : SpeechOutcome)
    (hto : ¬ (t - st.sess.started_at > MAX_SESSION_DURATION))
    (hty : m.typ.getD "" = "frame")
    (hgate : ¬ (now - st.last_analysis_time < MIN_FRAME_INTERVAL))
    (himg : m.image.getD "" = "") :
    screen_iter st ⟨t, .received (.object m) now vo so⟩ = ⟨st, [], .next⟩ := by
  rw [screen_iter_received st t now m vo so hto, handle_msg_frame st m now vo so hty,
      handle_frame_empty_image st m now vo so hgate himg]

/-- C10 witness: a gate-passing frame without an image leaves the handler
state (gate timestamp included) untouched and emits nothing. -/
theorem empty_image_frame_dropped_witness :
    screen_iter ⟨⟨"s", "hi", "", "", 1, 0, true⟩, 2⟩
        ⟨10, .received (.object { typ := some "frame" }) 10 .fail .fail⟩
      = ⟨⟨⟨"s", "hi", "", "", 1, 0, true⟩, 2⟩, [], .next⟩ :=
  empty_image_frame_dropped ⟨⟨"s", "hi", "", "", 1, 0, true⟩, 2⟩
    { typ := some "frame" } 10 10 .fail .fail
    (by norm_num [MAX_SESSION_DURATION]) (by rfl)
    (by norm_num [MIN_FRAME_INTERVAL]) (by rfl)

/-- C8: the guidance-offer classifier returns true iff at least two distinct
keywords of the fixed `GUIDED_KEYWORDS` set occur as case-insensitive
substrings of the reply (each distinct keyword counted once however often it
recurs, hence the dedup formulation), and in particular the two spec examples
classify as stated. -/
theorem is_guided_flow_contract :
    (∀ r : String, is_guided_flow r = true
       ↔ 2 ≤ ((GUIDED_KEYWORDS.filter (kwMatches r)).dedup).length)
    ∧ is_guided_flow "Step 1: open the portal, Step 2: submit the form" = true
    ∧ is_guided_flow "Your balance is ₹500" = false := by
  refine ⟨fun r => ?_, by rfl, by rfl⟩
  have hnd : GUIDED_KEYWORDS.Nodup := by decide
  rw [List.dedup_eq_self.mpr (hnd.filter _)]
  simp only [is_guided_flow, decide_eq_true_eq]
  rw [List.countP_eq_length_filter]

/-- C3: `last_guidance` is only ever overwritten by non-empty guidance text
different from its current value (first conjunct, over every possible loop
iteration), and two consecutively analyzed frames whose analyses return the
same non-empty text — new with respect to the current `last_guidance` —
produce exactly one guidance event: the full outbound event list of the
two-frame run is that single event, the second frame being suppressed. -/
theorem last_guidance_dedup :
    (∀ (st : HandlerState) (inp : IterInput),
       (screen_iter st inp).state.sess.last_guidance = st.sess.last_guidance
       ∨ ((screen_iter st inp).state.sess.last_guidance ≠ ""
          ∧ (screen_iter st inp).state.sess.last_guidance
              ≠ st.sess.last_guidance))
    ∧ (∀ (st : HandlerState) (g img1 img2 : String) (t1 t2 : ℚ)
         (so1 so2 : SpeechOutcome),
       st.sess.is_active = true →
       g ≠ "" → g ≠ st.sess.last_guidance →
       ¬ (t1 - st.sess.started_at > MAX_SESSION_DURATION) →
       ¬ (t2 - st.sess.started_at > MAX_SESSION_DURATION) →
       ¬ (t1 - st.last_analysis_time < MIN_FRAME_INTERVAL) →
       ¬ (t2 - t1 < MIN_FRAME_INTERVAL) →
       img1 ≠ "" → img2 ≠ "" →
       eventsOf (screen_loop st
         [⟨t1, .received (.object { typ := some "frame", image := some img1 })
               t1 (.ok g) so1⟩,
          ⟨t2, .received (.object { typ := some "frame", image := some img2 })
               t2 (.ok g) so2⟩]).acts
         = [.guidance g
             (if synthesize so1 ≠ [] then b64encode (synthesize so1) else "")
             (st.sess.frame_count + 1)]) := by
  constructor
  · exact screen_iter_last_guidance
  · intro st g img1 img2 t1 t2 so1 so2 hact hg hdiff hto1 hto2 hgate1 hgate2 him1 him2
    have e1 : screen_iter st
        ⟨t1, .received (.object { typ := some "frame", image := some img1 })
             t1 (.ok g) so1⟩
        = ⟨⟨{ st.sess with last_guidance := g,
                           frame_count := st.sess.frame_count + 1 }, t1⟩,
           [.inc_frame, .set_gate t1,
            .vision_call img1 st.sess.context st.sess.lang,
            .tts_call g st.sess.lang,
            .send (.guidance g
                   (if synthesize so1 ≠ [] then b64encode (synthesize so1) else "")
                   (st.sess.frame_count + 1))], .next⟩ := by
      rw [screen_iter_received st t1 t1 _ _ _ hto1,
          handle_msg_frame st _ t1 _ _ (by rfl),
          handle_frame_new st _ t1 _ _ hgate1 (by simpa using him1)
            (by exact hg) (by exact hdiff)]
      rfl
    set st1 : HandlerState :=
      ⟨{ st.sess with last_guidance := g,
                      frame_count := st.sess.frame_count + 1 }, t1⟩ with hst1
    have e2 : screen_iter st1
        ⟨t2, .received (.object { typ := some "frame", image := some img2 })
             t2 (.ok g) so2⟩
        = ⟨⟨{ st1.sess with frame_count := st1.sess.frame_count + 1 }, t2⟩,
           [.inc_frame, .set_gate t2,
            .vision_call img2 st1.sess.context st1.sess.lang],
           .next⟩ := by
      rw [screen_iter_received st1 t2 t2 _ _ _ hto2,
          handle_msg_frame st1 _ t2 _ _ (by rfl),
          handle_frame_suppressed st1 _ t2 _ _ hgate2 (by simpa using him2)
            (Or.inr (by rfl))]
      rfl
    rw [screen_loop_cons_next st _ _ hact (by rw [e1]), e1]
    rw [screen_loop_cons_next st1 _ _ hact (by rw [e2]), e2]
    simp [screen_loop, eventsOf]

/-- C3 witness: two gate-passing frames both analyzed to "Press the blue
button" from a fresh session yield exactly one guidance event. -/
theorem last_guidance_dedup_witness :
    eventsOf (screen_loop ⟨⟨"s", "en", "", "", 0, 0, true⟩, 0⟩
      [⟨10, .received (.object { typ := some "frame", image := some "i1" })
            10 (.ok "Press the blue button") .fail⟩,
       ⟨20, .received (.object { typ := some "frame", image := some "i2" })
            20 (.ok "Press the blue button") .fail⟩]).acts
      = [.guidance "Press the blue button" "" 1] := by
  have h := last_guidance_dedup.2 ⟨⟨"s", "en", "", "", 0, 0, true⟩, 0⟩
    "Press the blue button" "i1" "i2" 10 20 .fail .fail rfl
    (by decide) (by decide)
    (by norm_num [MAX_SESSION_DURATION]) (by norm_num [MAX_SESSION_DURATION])
    (by norm_num [MIN_FRAME_INTERVAL]) (by norm_num [MIN_FRAME_INTERVAL])
    (by decide) (by decide)
  simpa [synthesize] using h

/-- C1 counterexample: a frame that passes the rate gate and whose vision
call fails does NOT vanish silently — `_openai_vision` catches the exception
and returns the non-empty `_vision_fallback` text, which the session treats
as ordinary new guidance: a guidance event is emitted and `last_guidance` is
overwritten with the fallback text, contradicting the claim that a failure
produces no event and leaves `last_guidance` untouched. -/
theorem adapter_failure_caught_cex :
    eventsOf (screen_iter ⟨⟨"s", "en", "apply", "", 0, 0, true⟩, 0⟩
        ⟨10, .received (.object { typ := some "frame", image := some "img" })
             10 .fail .fail⟩).acts
      = [.guidance "Screen analysis failed. Please try again." "" 1]
    ∧ (screen_iter ⟨⟨"s", "en", "apply", "", 0, 0, true⟩, 0⟩
        ⟨10, .received (.object { typ := some "frame", image := some "img" })
             10 .fail .fail⟩).state.sess.last_guidance
      = "Screen analysis failed. Please try again." := by
  have e : screen_iter ⟨⟨"s", "en", "apply", "", 0, 0, true⟩, 0⟩
      ⟨10, .received (.object { typ := some "frame", image := some "img" })
           10 .fail .fail⟩
      = ⟨⟨⟨"s", "en", "apply", "Screen analysis failed. Please try again.", 1, 0, true⟩, 10⟩,
         [.inc_frame, .set_gate 10, .vision_call "img" "apply" "en",
          .tts_call "Screen analysis failed. Please try again." "en",
          .send (.guidance "Screen analysis failed. Please try again." "" 1)],
         .next⟩ := by
    rw [screen_iter_received _ _ _ _ _ _ (by norm_num [MAX_SESSION_DURATION]),
        handle_msg_frame _ _ _ _ _ (by rfl),
        handle_frame_new _ _ _ _ _ (by norm_num [MIN_FRAME_INTERVAL])
          (by decide) (by decide) (by decide)]
    rfl
  rw [e]
  exact ⟨rfl, rfl⟩

/-- C1 (amended): an adapter failure during the analysis pipeline is caught
and never terminates the session (control continues, `is_active` untouched);
but a vision failure is converted into the non-empty language-specific
fallback text and then handled as ordinary guidance — emitted as a guidance
event and stored into `last_guidance` when it differs from the current
`last_guidance`, suppressed only when identical to it — and a
speech-synthesis failure still lets the guidance event go out, with empty
audio. -/
theorem adapter_failure_caught :
    (∀ (st : HandlerState) (m : MsgObj) (t now : ℚ) (so : SpeechOutcome),
       ¬ (t - st.sess.started_at > MAX_SESSION_DURATION) →
       m.typ.getD "" = "frame" →
       ¬ (now - st.last_analysis_time < MIN_FRAME_INTERVAL) →
       m.image.getD "" ≠ "" →
       (screen_iter st ⟨t, .received (.object m) now .fail so⟩).ctl = .next
       ∧ (screen_iter st ⟨t, .received (.object m) now .fail so⟩).state.sess.is_active
           = st.sess.is_active
       ∧ (vision_fallback st.sess.lang ≠ st.sess.last_guidance →
            (screen_iter st ⟨t, .received (.object m) now .fail so⟩).state.sess.last_guidance
              = vision_fallback st.sess.lang
            ∧ eventsOf (screen_iter st ⟨t, .received (.object m) now .fail so⟩).acts
              = [.guidance (vision_fallback st.sess.lang)
                  (if synthesize so ≠ [] then b64encode (synthesize so) else "")
                  (st.sess.frame_count + 1)])
       ∧ (vision_fallback st.sess.lang = st.sess.last_guidance →
            (screen_iter st ⟨t, .received (.object m) now .fail so⟩).state.sess.last_guidance
              = st.sess.last_guidance
            ∧ eventsOf (screen_iter st ⟨t, .received (.object m) now .fail so⟩).acts
              = []))
    ∧ (∀ (st : HandlerState) (m : MsgObj) (t now : ℚ) (g : String),
       ¬ (t - st.sess.started_at > MAX_SESSION_DURATION) →
       m.typ.getD "" = "frame" →
       ¬ (now - st.last_analysis_time < MIN_FRAME_INTERVAL) →
       m.image.getD "" ≠ "" →
       g ≠ "" → g ≠ st.sess.last_guidance →
       eventsOf (screen_iter st ⟨t, .received (.object m) now (.ok g) .fail⟩).acts
         = [.guidance g "" (st.sess.frame_count + 1)]) := by
  constructor
  · intro st m t now so hto hty hgate himg
    rw [screen_iter_received st t now m _ so hto, handle_msg_frame st m now _ so hty]
    by_cases hdiff : vision_fallback st.sess.lang ≠ st.sess.last_guidance
    · rw [handle_frame_new st m now _ so hgate himg
          (by exact vision_fallback_ne_empty st.sess.lang) (by exact hdiff)]
      refine ⟨rfl, rfl, fun _ => ⟨rfl, by simp [eventsOf, analyze_screen]⟩,
        fun heq => absurd heq hdiff⟩
    · have heq : vision_fallback st.sess.lang = st.sess.last_guidance := not_not.mp hdiff
      rw [handle_frame_suppressed st m now _ so hgate himg (Or.inr (by exact heq))]
      refine ⟨rfl, rfl, fun hne => absurd heq hne,
        fun _ => ⟨rfl, by simp [eventsOf, analyze_screen]⟩⟩
  · intro st m t now g hto hty hgate himg hg hdiff
    rw [screen_iter_received st t now m _ _ hto, handle_msg_frame st m now _ _ hty,
        handle_frame_new st m now _ _ hgate himg (by exact hg) (by exact hdiff)]
    simp [eventsOf, synthesize, analyze_screen]

/-- C1 witness: a vision failure on an active English session yields the
fallback guidance event (not silence), and a speech failure on a successful
analysis yields the guidance event with empty audio; in both cases the loop
continues. -/
theorem adapter_failure_caught_witness :
    ((screen_iter ⟨⟨"s", "en", "", "", 0, 0, true⟩, 0⟩
        ⟨10, .received (.object { typ := some "frame", image := some "i" })
             10 .fail .fail⟩).ctl = .next
     ∧ (screen_iter ⟨⟨"s", "en", "", "", 0, 0, true⟩, 0⟩
          ⟨10, .received (.object { typ := some "frame", image := some "i" })
               10 .fail .fail⟩).state.sess.is_active = true)
    ∧ eventsOf (screen_iter ⟨⟨"s", "en", "", "prev", 3, 0, true⟩, 0⟩
        ⟨10, .received (.object { typ := some "frame", image := some "i" })
             10 (.ok "Click next") .fail⟩).acts
      = [.guidance "Click next" "" 4] := by
  have h1 := adapter_failure_caught.1 ⟨⟨"s", "en", "", "", 0, 0, true⟩, 0⟩
    { typ := some "frame", image := some "i" } 10 10 .fail
    (by norm_num [MAX_SESSION_DURATION]) (by rfl)
    (by norm_num [MIN_FRAME_INTERVAL]) (by decide)
  have h2 := adapter_failure_caught.2 ⟨⟨"s", "en", "", "prev", 3, 0, true⟩, 0⟩
    { typ := some "frame", image := some "i" } 10 10 "Click next"
    (by norm_num [MAX_SESSION_DURATION]) (by rfl)
    (by norm_num [MIN_FRAME_INTERVAL]) (by decide) (by decide) (by decide)
  exact ⟨⟨h1.1, h1.2.1⟩, h2⟩

/-- C2 counterexample: a well-formed JSON object whose `type` is unrecognized
("bogus") produces NO event at all — the dispatch falls through every branch
silently — contradicting the claim that every unrecognized message shape
yields exactly one error event. -/
theorem malformed_message_cex :
    screen_iter ⟨⟨"s", "hi", "", "", 0, 0, true⟩, 0⟩
        ⟨10, .received (.object { typ := some "bogus" }) 10 .fail .fail⟩
      = ⟨⟨⟨"s", "hi", "", "", 0, 0, true⟩, 0⟩, [], .next⟩ := by
  rw [screen_iter_received _ _ _ _ _ _ (by norm_num [MAX_SESSION_DURATION]),
      handle_msg_unrecognized _ _ _ _ _ (by decide)]

/-- C2 (amended): only a payload that fails JSON parsing yields exactly one
error event ("Invalid JSON"), with the session still active and its state
unchanged; a JSON object with an unrecognized or missing `type` is silently
ignored (no event, state unchanged, session continues); and a JSON payload
that is not an object raises `AttributeError` past the dispatch, which the
handler's outer `except` turns into silent session termination (no event). -/
theorem malformed_message_handling :
    (∀ (st : HandlerState) (t now : ℚ) (vo : VisionOutcome) (so : SpeechOutcome),
       ¬ (t - st.sess.started_at > MAX_SESSION_DURATION) →
       screen_iter st ⟨t, .received .bad_json now vo so⟩
         = ⟨st, [.send (.error "Invalid JSON")], .next⟩)
    ∧ (∀ (st : HandlerState) (m : MsgObj) (t now : ℚ)
         (vo : VisionOutcome) (so : SpeechOutcome),
       ¬ (t - st.sess.started_at > MAX_SESSION_DURATION) →
       m.typ.getD "" ∉ (["start", "frame", "command", "stop"] : List String) →
       screen_iter st ⟨t, .received (.object m) now vo so⟩ = ⟨st, [], .next⟩)
    ∧ (∀ (st : HandlerState) (t now : ℚ) (vo : VisionOutcome) (so : SpeechOutcome),
       ¬ (t - st.sess.started_at > MAX_SESSION_DURATION) →
       screen_iter st ⟨t, .received .non_object now vo so⟩ = ⟨st, [], .halt⟩) := by
  refine ⟨screen_iter_bad_json, fun st m t now vo so h hm => ?_,
          screen_iter_non_object⟩
  rw [screen_iter_received st t now m vo so h, handle_msg_unrecognized st m now vo so hm]

/-- C2 witness: a non-JSON payload at 10 s yields exactly the "Invalid JSON"
error event with the state untouched. -/
theorem malformed_message_handling_witness :
    screen_iter ⟨⟨"s", "hi", "", "", 0, 0, true⟩, 0⟩
        ⟨10, .received .bad_json 10 .fail .fail⟩
      = ⟨⟨⟨"s", "hi", "", "", 0, 0, true⟩, 0⟩,
         [.send (.error "Invalid JSON")], .next⟩ :=
  malformed_message_handling.1 ⟨⟨"s", "hi", "", "", 0, 0, true⟩, 0⟩ 10 10 .fail .fail
    (by norm_num [MAX_SESSION_DURATION])

end Sampark
